import Mathlib

/-!
Module 07 of docker-learning-journey: the two Go web services.

A shallow embedding of

* `module-07-docker-compose/02-go-web-db/main.go` (namespace `GoWebDb`):
  `main`, `indexHandler`, `initDbHandler`;
* `module-07-docker-compose/03-go-db-redis/main.go` (namespace `GoDbRedis`):
  `main`, `indexHandlerWithRedis`, `initDbHandlerWithRedis`.

The PostgreSQL server and the Redis server are not part of the repository.
They are modelled by the section "The two stores": one table `greetings`,
one key `visits`, and a schedule that says which client calls fail on
connectivity.  Every client call is appended to a trace, so that what a
handler issued can be read back.  The model of the servers assumes:

* `SELECT ... LIMIT 1` returns the row stored first, `sql.ErrNoRows` on an
  empty table, an error on a missing table, and `Scan` into a `string` fails on
  `NULL`;
* `CREATE TABLE` fails on an existing table, `INSERT` fails on a missing one,
  and a new table starts its `SERIAL` sequence at 1;
* `INCR` counts a missing key as 0 and fails instead of passing the largest
  signed 64-bit integer.
-/

/-! ## The two stores -/

/-- Errors of a `database/sql` call.  `ErrNoRows` is `sql.ErrNoRows`; the other
constructors are the errors the four statements of the services can meet. -/
inductive SqlErr where
  | ErrNoRows
  | connection
  | undefinedTable
  | duplicateTable
  | scanNull
  deriving DecidableEq, Repr

/-- Errors of a `go-redis` call. -/
inductive RedisErr where
  | connection
  | overflow
  deriving DecidableEq, Repr

/-- A row of `greetings (id SERIAL PRIMARY KEY, message TEXT)`; the column
`message` is nullable. -/
structure Row where
  id : Nat
  message : Option String
  deriving DecidableEq, Repr

/-- The table `greetings` with the next value of its `SERIAL` sequence. -/
structure Table where
  rows : List Row
  nextId : Nat
  deriving DecidableEq, Repr

/-- The three statements the services pass to `db.Exec`. -/
inductive Stmt where
  /-- `DROP TABLE IF EXISTS greetings;` -/
  | dropTable
  /-- `CREATE TABLE greetings (id SERIAL PRIMARY KEY, message TEXT);` -/
  | createTable
  /-- `INSERT INTO greetings (message) VALUES ('m');` -/
  | insertGreeting (m : String)
  deriving DecidableEq, Repr

/-- A client call as it reaches one of the two stores. -/
inductive StoreOp where
  /-- `db.Exec(stmt)` -/
  | exec (s : Stmt)
  /-- `db.QueryRow("SELECT message FROM greetings LIMIT 1")` -/
  | query
  /-- `rdb.Incr(ctx, "visits")` -/
  | incr
  /-- `rdb.Set(ctx, "visits", v, 0)` -/
  | set (v : Int)
  deriving DecidableEq, Repr

deriving instance DecidableEq for Except

/-- The state the handlers run against: both stores, the connectivity
schedule of each (`dbDown n` says that the `n`-th relational call fails before
it reaches the server, counted from 0), and the trace of calls issued. -/
structure World where
  greetings : Option Table
  visits : Option Int
  dbDown : Nat → Bool
  dbCalls : Nat
  cacheDown : Nat → Bool
  cacheCalls : Nat
  trace : List StoreOp

/-- The largest value of a Redis integer (signed 64 bit). -/
def maxInt64 : Int := 2 ^ 63 - 1

/-- The value `INCR` starts from: a missing key counts as 0. -/
def World.counter (w : World) : Int := w.visits.getD 0

/-- The world once a relational call `op` has been issued. -/
def World.dbIssued (w : World) (op : StoreOp) : World :=
  { w with dbCalls := w.dbCalls + 1, trace := w.trace ++ [op] }

/-- The world once a cache call `op` has been issued. -/
def World.cacheIssued (w : World) (op : StoreOp) : World :=
  { w with cacheCalls := w.cacheCalls + 1, trace := w.trace ++ [op] }

/-- The call `db.Exec(s)`. -/
def dbExec (s : Stmt) (w : World) : Except SqlErr Unit × World :=
  let w1 := w.dbIssued (.exec s)
  if w.dbDown w.dbCalls then (.error .connection, w1)
  else
    match s with
    | .dropTable => (.ok (), { w1 with greetings := none })
    | .createTable =>
      match w.greetings with
      | some _ => (.error .duplicateTable, w1)
      | none => (.ok (), { w1 with greetings := some ⟨[], 1⟩ })
    | .insertGreeting m =>
      match w.greetings with
      | none => (.error .undefinedTable, w1)
      | some t =>
        (.ok (), { w1 with greetings := some ⟨t.rows ++ [⟨t.nextId, some m⟩], t.nextId + 1⟩ })

/-- The call `db.QueryRow("SELECT message FROM greetings LIMIT 1").Scan(&message)`. -/
def dbQueryRowScan (w : World) : Except SqlErr String × World :=
  let w1 := w.dbIssued .query
  if w.dbDown w.dbCalls then (.error .connection, w1)
  else
    match w.greetings with
    | none => (.error .undefinedTable, w1)
    | some t =>
      match t.rows with
      | [] => (.error .ErrNoRows, w1)
      | r :: _ =>
        match r.message with
        | none => (.error .scanNull, w1)
        | some m => (.ok m, w1)

/-- The call `rdb.Incr(ctx, "visits").Result()`. -/
def rdbIncr (w : World) : Except RedisErr Int × World :=
  let w1 := w.cacheIssued .incr
  if w.cacheDown w.cacheCalls then (.error .connection, w1)
  else if maxInt64 ≤ w.counter then (.error .overflow, w1)
  else (.ok (w.counter + 1), { w1 with visits := some (w.counter + 1) })

/-- The call `rdb.Set(ctx, "visits", v, 0)`. -/
def rdbSet (v : Int) (w : World) : Except RedisErr Unit × World :=
  let w1 := w.cacheIssued (.set v)
  if w.cacheDown w.cacheCalls then (.error .connection, w1)
  else (.ok (), { w1 with visits := some v })

/-! ## HTTP responses -/

/-- What a handler leaves in its `http.ResponseWriter`. -/
structure Response where
  status : Nat
  body : String
  deriving DecidableEq, Repr

/-- The constant `http.StatusInternalServerError`. -/
def StatusInternalServerError : Nat := 500

/-- The constant `http.StatusOK`, the status of a response that is written to
without a call of `WriteHeader`. -/
def StatusOK : Nat := 200

/-- The call `http.Error(w, msg, code)`: the status and the message on a line. -/
def httpError (msg : String) (code : Nat) : Response :=
  ⟨code, msg ++ "\n"⟩

/-! ## Startup -/

/-- How one pass of the connection loop of `main` goes: `sql.Open` returns an
error, or `sql.Open` succeeds and `db.Ping` returns an error, or both succeed. -/
inductive Attempt where
  | openFails
  | pingFails
  | connects
  deriving DecidableEq, Repr

/-- What `main` does, in order. -/
inductive BootEvent where
  /-- `sql.Open("postgres", psqlInfo)` -/
  | sqlOpen
  /-- `db.Ping()` -/
  | dbPing
  /-- `log.Printf("Could not connect ...")` -/
  | logRetry
  /-- `time.Sleep(time.Second * 2)` -/
  | sleep
  /-- `log.Fatalf("Failed to connect to database ...")`: the process exits -/
  | fatalDb
  /-- `log.Println("Successfully connected to the database!")` -/
  | logDbConnected
  /-- `redis.NewClient(...)` -/
  | redisNewClient
  /-- `rdb.Ping(ctx).Result()` -/
  | redisPing
  /-- `log.Fatalf("Failed to connect to Redis ...")`: the process exits -/
  | fatalRedis
  /-- `log.Println("Successfully connected to Redis!")` -/
  | logRedisConnected
  /-- `r.HandleFunc(path, handler)` -/
  | handleFunc (path : String)
  /-- `log.Println("Web server starting on port 5000...")` -/
  | logStarting
  /-- `http.ListenAndServe(":5000", r)`: requests are served from here on -/
  | listenAndServe
  deriving DecidableEq, Repr

/-- The surroundings of a start of the process: the outcome of the `i`-th pass
of the connection loop (from 0) and whether the Redis ping succeeds. -/
structure Startup where
  rel : Nat → Attempt
  cachePing : Bool

/-- The loop `for i := 0; i < 5; i++` of `main`, with `n` passes left, `i` the
loop variable and `err` whether `err != nil` holds on entry; `onFail` is what a
failed pass does after the attempt (the two services differ in it).  The result
is whether `err != nil` holds after the loop, and the events of the loop. -/
def retryLoop (onFail : List BootEvent) (rel : Nat → Attempt) :
    Nat → Nat → Bool → Bool × List BootEvent
  | 0, _, err => (err, [])
  | n + 1, i, _ =>
    match rel i with
    | .connects => (false, [.sqlOpen, .dbPing])
    | .openFails =>
      let r := retryLoop onFail rel n (i + 1) true
      (r.1, [.sqlOpen] ++ onFail ++ r.2)
    | .pingFails =>
      let r := retryLoop onFail rel n (i + 1) true
      (r.1, [.sqlOpen, .dbPing] ++ onFail ++ r.2)

/-! ## 02-go-web-db -/

namespace GoWebDb

/-- The seed message of `initDbHandler`. -/
def seedMessage : String := "Hello from the PostgreSQL database, served by Go!"

/-- The format `"<h1>%s</h1>"` of `indexHandler`. -/
def render (message : String) : String :=
  "<h1>" ++ message ++ "</h1>"

/-- The handler of `/`. -/
def indexHandler (w : World) : Response × World :=
  match dbQueryRowScan w with
  | (.ok message, w1) => (⟨StatusOK, render message⟩, w1)
  | (.error err, w1) =>
    if err = .ErrNoRows then
      (⟨StatusOK, render "No greeting found. Visit /init-db to create one."⟩, w1)
    else
      (httpError "Database query error" StatusInternalServerError, w1)

/-- The handler of `/init-db`. -/
def initDbHandler (w : World) : Response × World :=
  match dbExec .dropTable w with
  | (.error _, w1) => (httpError "DB Error" StatusInternalServerError, w1)
  | (.ok _, w1) =>
    match dbExec .createTable w1 with
    | (.error _, w2) => (httpError "DB Error" StatusInternalServerError, w2)
    | (.ok _, w2) =>
      match dbExec (.insertGreeting seedMessage) w2 with
      | (.error _, w3) => (httpError "DB Error" StatusInternalServerError, w3)
      | (.ok _, w3) =>
        (⟨StatusOK,
          "Database table \x27greetings\x27 created and populated! Go back to <a href=\x27/\x27>/</a>.\n"⟩,
          w3)

/-- The function `main`. -/
def main (s : Startup) : List BootEvent :=
  let r := retryLoop [.logRetry] s.rel 5 0 false
  if r.1 then r.2 ++ [.fatalDb]
  else
    r.2 ++ [.logDbConnected, .handleFunc "/", .handleFunc "/init-db", .logStarting,
      .listenAndServe]

end GoWebDb

/-! ## 03-go-db-redis -/

namespace GoDbRedis

/-- The seed message of `initDbHandlerWithRedis`. -/
def seedMessage : String := "Hello from Go, with visits tracked by Redis!"

/-- The message `indexHandlerWithRedis` renders when the read returns an error. -/
def noGreeting : String := "No greeting found."

/-- The format
`"<h1>%s</h1><p>This page has been visited <strong>%d</strong> times.</p>"`. -/
def render (message : String) (visits : Int) : String :=
  "<h1>" ++ message ++ "</h1><p>This page has been visited <strong>" ++ toString visits
    ++ "</strong> times.</p>"

/-- The value of `message` at the call of `fmt.Fprintf` in
`indexHandlerWithRedis`, for a result of the read. -/
def messageOf : Except SqlErr String → String
  | .ok m => m
  | .error _ => noGreeting

/-- The handler of `/`. -/
def indexHandlerWithRedis (w : World) : Response × World :=
  match rdbIncr w with
  | (.error _, w1) => (httpError "Redis error" StatusInternalServerError, w1)
  | (.ok visits, w1) =>
    match dbQueryRowScan w1 with
    | (.ok message, w2) => (⟨StatusOK, render message visits⟩, w2)
    | (.error _, w2) => (⟨StatusOK, render noGreeting visits⟩, w2)

/-- The handler of `/init-db`.  The results of the four calls are discarded. -/
def initDbHandlerWithRedis (w : World) : Response × World :=
  let w1 := (dbExec .dropTable w).2
  let w2 := (dbExec .createTable w1).2
  let w3 := (dbExec (.insertGreeting seedMessage) w2).2
  let w4 := (rdbSet 0 w3).2
  (⟨StatusOK, "Database and Redis counter reset! Go back to <a href=\x27/\x27>/</a>.\n"⟩, w4)

/-- The function `main`. -/
def main (s : Startup) : List BootEvent :=
  let r := retryLoop [.logRetry, .sleep] s.rel 5 0 false
  if r.1 then r.2 ++ [.fatalDb]
  else if !s.cachePing then r.2 ++ [.redisNewClient, .redisPing, .fatalRedis]
  else
    r.2 ++ [.redisNewClient, .redisPing, .logRedisConnected, .handleFunc "/",
      .handleFunc "/init-db", .logStarting, .listenAndServe]

/-- The handler of `/` called `n` times in a row: the responses in order and
the world after the last call. -/
def views : Nat → World → List Response × World
  | 0, w => ([], w)
  | n + 1, w =>
    let r := indexHandlerWithRedis w
    let rs := views n r.2
    (r.1 :: rs.1, rs.2)

end GoDbRedis

/-! ## Worlds used as examples -/

/-- A store with no table and no key, always reachable. -/
def freshWorld : World :=
  ⟨none, none, fun _ => false, 0, fun _ => false, 0, []⟩

/-- A store whose table holds one greeting and whose counter is 0; the first
relational call fails on connectivity, every later call goes through. -/
def dbDownOnceWorld : World :=
  ⟨some ⟨[⟨1, some "Hello"⟩], 2⟩, some 0, fun n => n == 0, 0, fun _ => false, 0, []⟩

/-- A store whose table holds one greeting and whose counter is 0; relational
call number `k` (from 0) fails on connectivity, every other call goes through. -/
def dbDownAt (k : Nat) : World :=
  ⟨some ⟨[⟨1, some "Hello"⟩], 2⟩, some 0, fun n => n == k, 0, fun _ => false, 0, []⟩

/-- A store whose table holds two greetings and whose counter is 9, always
reachable. -/
def usedWorld : World :=
  ⟨some ⟨[⟨1, some "Hello"⟩, ⟨2, none⟩], 3⟩, some 9, fun _ => false, 0, fun _ => false, 0, []⟩

/-- A store with no table whose counter is 7; the first cache call fails on
connectivity. -/
def cacheDownOnceWorld : World :=
  ⟨none, some 7, fun _ => false, 0, fun n => n == 0, 0, []⟩

/-- No greeting row exists: there is no table, or the table is empty. -/
def World.noGreetingRow (w : World) : Prop :=
  match w.greetings with
  | none => True
  | some t => t.rows = []

/-- From now on no call fails on connectivity. -/
def World.storesUp (w : World) : Prop :=
  (∀ n, w.dbCalls ≤ n → w.dbDown n = false) ∧ (∀ n, w.cacheCalls ≤ n → w.cacheDown n = false)

/-- The sequence of outcomes in which pass `k` (from 0) is the first to connect
and the earlier passes fail alternately at the ping and at the open. -/
def firstConnectsAt (k : Nat) : Nat → Attempt :=
  fun i => if i < k then (if i % 2 = 0 then .pingFails else .openFails) else .connects

/-! ## Theorems -/

set_option maxRecDepth 1000000

/-! ### The store calls -/

/-- Whatever its result, the read leaves the world with one more relational
call and nothing else changed. -/
theorem dbQueryRowScan_snd (w : World) : (dbQueryRowScan w).2 = w.dbIssued .query := by
  unfold dbQueryRowScan
  simp only
  split
  · rfl
  split
  · rfl
  split
  · rfl
  split <;> rfl

/-- When no greeting row exists the read returns an error. -/
theorem dbQueryRowScan_noGreetingRow (w : World) (h : w.noGreetingRow) :
    ∃ e, (dbQueryRowScan w).1 = .error e := by
  unfold World.noGreetingRow at h
  unfold dbQueryRowScan
  by_cases hd : w.dbDown w.dbCalls = true
  · exact ⟨.connection, by simp [hd]⟩
  · cases hg : w.greetings with
    | none => exact ⟨.undefinedTable, by simp [hd]⟩
    | some t =>
      rw [hg] at h
      simp only at h
      exact ⟨.ErrNoRows, by simp [hd, h]⟩

/-- When a call of the relational store goes through and the first row of the
table has message `m`, the read returns `m`. -/
theorem dbQueryRowScan_ok (w : World) (r : Row) (rs : List Row) (n : Nat) (m : String)
    (hd : w.dbDown w.dbCalls = false) (hg : w.greetings = some ⟨r :: rs, n⟩)
    (hm : r.message = some m) : (dbQueryRowScan w).1 = .ok m := by
  unfold dbQueryRowScan
  simp [hd, hg, hm]

/-- The increment succeeds exactly when the cache is reachable and the counter
is below the largest integer; its value is the counter plus one. -/
theorem rdbIncr_ok_iff (w : World) (v : Int) :
    (rdbIncr w).1 = .ok v ↔
      w.cacheDown w.cacheCalls = false ∧ w.counter < maxInt64 ∧ v = w.counter + 1 := by
  unfold rdbIncr
  by_cases h1 : w.cacheDown w.cacheCalls = true
  · simp [h1]
  · by_cases h2 : maxInt64 ≤ w.counter
    · simp [h1, h2]
    · simp [h1, h2, eq_comm]
      omega

/-- The world after a successful increment. -/
theorem rdbIncr_snd_of_ok (w : World) (v : Int) (h : (rdbIncr w).1 = .ok v) :
    (rdbIncr w).2 = { w.cacheIssued .incr with visits := some v } := by
  obtain ⟨h1, h2, h3⟩ := (rdbIncr_ok_iff w v).1 h
  unfold rdbIncr
  simp [h1, not_le.2 h2, h3]

/-- The world after a failed increment. -/
theorem rdbIncr_snd_of_error (w : World) (e : RedisErr) (h : (rdbIncr w).1 = .error e) :
    (rdbIncr w).2 = w.cacheIssued .incr := by
  unfold rdbIncr at h ⊢
  by_cases h1 : w.cacheDown w.cacheCalls = true
  · simp [h1]
  · by_cases h2 : maxInt64 ≤ w.counter
    · simp [h1, h2]
    · simp [h1, h2] at h

/-! ### The handler of `/` -/

/-- The handler when the increment fails. -/
theorem GoDbRedis.indexHandlerWithRedis_of_error (w : World) (e : RedisErr)
    (h : (rdbIncr w).1 = .error e) :
    indexHandlerWithRedis w = (httpError "Redis error" StatusInternalServerError,
      w.cacheIssued .incr) := by
  have h2 := rdbIncr_snd_of_error w e h
  unfold indexHandlerWithRedis
  rcases hr : rdbIncr w with ⟨r, w1⟩
  rw [hr] at h h2
  simp only at h h2
  subst h h2
  rfl

/-- The handler when the increment succeeds. -/
theorem GoDbRedis.indexHandlerWithRedis_of_ok (w : World) (v : Int)
    (h : (rdbIncr w).1 = .ok v) :
    indexHandlerWithRedis w =
      (⟨StatusOK, render (messageOf (dbQueryRowScan (rdbIncr w).2).1) v⟩,
        (rdbIncr w).2.dbIssued .query) := by
  unfold indexHandlerWithRedis
  rcases hr : rdbIncr w with ⟨r, w1⟩
  rw [hr] at h
  simp only at h
  subst h
  simp only
  have hq := dbQueryRowScan_snd w1
  rcases hq1 : dbQueryRowScan w1 with ⟨q, w2⟩
  rw [hq1] at hq
  simp only at hq
  subst hq
  cases q <;> rfl

/-- C3: whenever the increment of `visits` fails, `indexHandlerWithRedis`
answers with status 500 and the body of `http.Error(w, "Redis error", ...)`,
the only store call it has issued is the increment, and the relational store
has not been called (its call count and its table are as before). -/
theorem indexHandlerWithRedis_cache_failure (w : World) (e : RedisErr)
    (h : (rdbIncr w).1 = .error e) :
    (GoDbRedis.indexHandlerWithRedis w).1 = ⟨500, "Redis error\n"⟩ ∧
    (GoDbRedis.indexHandlerWithRedis w).2.trace = w.trace ++ [.incr] ∧
    (GoDbRedis.indexHandlerWithRedis w).2.dbCalls = w.dbCalls ∧
    (GoDbRedis.indexHandlerWithRedis w).2.greetings = w.greetings := by
  have hbody : httpError "Redis error" StatusInternalServerError = ⟨500, "Redis error\n"⟩ := by
    decide
  rw [GoDbRedis.indexHandlerWithRedis_of_error w e h]
  exact ⟨hbody, rfl, rfl, rfl⟩

/-- C3, at a world whose cache is unreachable for the first call. -/
theorem indexHandlerWithRedis_cache_failure_witness :
    (rdbIncr cacheDownOnceWorld).1 = .error .connection ∧
    (GoDbRedis.indexHandlerWithRedis cacheDownOnceWorld).1 = ⟨500, "Redis error\n"⟩ ∧
    (GoDbRedis.indexHandlerWithRedis cacheDownOnceWorld).2.trace
      = cacheDownOnceWorld.trace ++ [.incr] ∧
    (GoDbRedis.indexHandlerWithRedis cacheDownOnceWorld).2.dbCalls = cacheDownOnceWorld.dbCalls ∧
    (GoDbRedis.indexHandlerWithRedis cacheDownOnceWorld).2.greetings
      = cacheDownOnceWorld.greetings :=
  ⟨by decide, indexHandlerWithRedis_cache_failure cacheDownOnceWorld .connection (by decide)⟩

/-- C1: at a world whose table holds a greeting and whose first relational
call fails on connectivity, `indexHandlerWithRedis` answers with status 200 and
the text "No greeting found." next to the count 1, where `indexHandler` of
02-go-web-db answers the same read with status 500; the counter is kept at 1,
and the next call renders the greeting with the count 2. -/
theorem indexHandlerWithRedis_read_failure_renders :
    (rdbIncr dbDownOnceWorld).1 = .ok 1 ∧
    (dbQueryRowScan (rdbIncr dbDownOnceWorld).2).1 = .error .connection ∧
    (GoDbRedis.indexHandlerWithRedis dbDownOnceWorld).1
      = ⟨200, "<h1>No greeting found.</h1><p>This page has been visited <strong>1</strong> times.</p>"⟩ ∧
    (GoDbRedis.indexHandlerWithRedis dbDownOnceWorld).2.visits = some 1 ∧
    (GoDbRedis.indexHandlerWithRedis (GoDbRedis.indexHandlerWithRedis dbDownOnceWorld).2).1
      = ⟨200, "<h1>Hello</h1><p>This page has been visited <strong>2</strong> times.</p>"⟩ ∧
    (GoWebDb.indexHandler dbDownOnceWorld).1 = ⟨500, "Database query error\n"⟩ := by
  decide

/-- C6, as stated, fails: on the fresh store with counter 0 the first call of
`indexHandlerWithRedis` answers with status 200 and the count 1, and the text it
renders is "No greeting found."; the words "no greeting configured yet" occur
nowhere in the body. -/
theorem indexHandlerWithRedis_placeholder_text :
    (GoDbRedis.indexHandlerWithRedis freshWorld).1
      = ⟨200, "<h1>No greeting found.</h1><p>This page has been visited <strong>1</strong> times.</p>"⟩ ∧
    ¬ ("no greeting configured yet".toList
        <:+: (GoDbRedis.indexHandlerWithRedis freshWorld).1.body.toList) := by
  decide

/-- C6, amended: whenever no greeting row exists (no table, or an empty table)
and the increment of `visits` succeeds with value `v`, `indexHandlerWithRedis`
answers with status 200, the text "No greeting found." and the count `v`, which
is one more than the counter before and is the counter afterwards; on the fresh
store with counter 0 the count is 1. -/
theorem indexHandlerWithRedis_no_row (w : World) (v : Int) (hrow : w.noGreetingRow)
    (hincr : (rdbIncr w).1 = .ok v) :
    (GoDbRedis.indexHandlerWithRedis w).1 = ⟨200, GoDbRedis.render "No greeting found." v⟩ ∧
    v = w.counter + 1 ∧
    (GoDbRedis.indexHandlerWithRedis w).2.visits = some v ∧
    (GoDbRedis.indexHandlerWithRedis freshWorld).1
      = ⟨200, "<h1>No greeting found.</h1><p>This page has been visited <strong>1</strong> times.</p>"⟩ := by
  have hw := rdbIncr_snd_of_ok w v hincr
  have hrow1 : (rdbIncr w).2.noGreetingRow := by
    rw [hw]
    exact hrow
  obtain ⟨e, he⟩ := dbQueryRowScan_noGreetingRow _ hrow1
  rw [GoDbRedis.indexHandlerWithRedis_of_ok w v hincr, he, hw]
  exact ⟨rfl, ((rdbIncr_ok_iff w v).1 hincr).2.2, rfl, by decide⟩

/-- C6 amended, at the fresh store and at a store whose table is empty and
whose counter is 41. -/
theorem indexHandlerWithRedis_no_row_witness :
    (GoDbRedis.indexHandlerWithRedis
        ⟨some ⟨[], 1⟩, some 41, fun _ => false, 0, fun _ => false, 0, []⟩).1
      = ⟨200, GoDbRedis.render "No greeting found." 42⟩ ∧
    (GoDbRedis.indexHandlerWithRedis freshWorld).1
      = ⟨200, GoDbRedis.render "No greeting found." 1⟩ :=
  ⟨(indexHandlerWithRedis_no_row
      ⟨some ⟨[], 1⟩, some 41, fun _ => false, 0, fun _ => false, 0, []⟩ 42
      (by simp [World.noGreetingRow]) (by decide)).1,
   (indexHandlerWithRedis_no_row freshWorld 1 (by simp [World.noGreetingRow, freshWorld])
      (by decide)).1⟩

/-! ### The handler of `/init-db` -/

/-- C2: when the first, the second or the third relational call of the reset
fails on connectivity, `initDbHandlerWithRedis` still issues all three
statements and the `SET`, and answers with status 200 and the confirmation;
`initDbHandler` of 02-go-web-db stops at the failing statement and answers with
status 500.  After a failed `DROP` the table of `initDbHandlerWithRedis` holds
two rows. -/
theorem initDbHandlerWithRedis_keeps_going :
    (∀ k ∈ [0, 1, 2],
      (GoDbRedis.initDbHandlerWithRedis (dbDownAt k)).1
        = ⟨200, "Database and Redis counter reset! Go back to <a href=\x27/\x27>/</a>.\n"⟩ ∧
      (GoDbRedis.initDbHandlerWithRedis (dbDownAt k)).2.trace
        = [.exec .dropTable, .exec .createTable,
            .exec (.insertGreeting "Hello from Go, with visits tracked by Redis!"), .set 0] ∧
      (GoWebDb.initDbHandler (dbDownAt k)).1 = ⟨500, "DB Error\n"⟩) ∧
    (dbExec .dropTable (dbDownAt 0)).1 = .error .connection ∧
    (GoDbRedis.initDbHandlerWithRedis (dbDownAt 0)).2.greetings
      = some ⟨[⟨1, some "Hello"⟩, ⟨2, some "Hello from Go, with visits tracked by Redis!"⟩], 3⟩ ∧
    (GoWebDb.initDbHandler (dbDownAt 0)).2.trace = [.exec .dropTable] ∧
    (GoWebDb.initDbHandler (dbDownAt 1)).2.trace = [.exec .dropTable, .exec .createTable] ∧
    (GoWebDb.initDbHandler (dbDownAt 2)).2.trace
      = [.exec .dropTable, .exec .createTable,
          .exec (.insertGreeting "Hello from the PostgreSQL database, served by Go!")] := by
  decide

/-- The world after a reset during which every call goes through. -/
theorem GoDbRedis.initDbHandlerWithRedis_snd (w : World) (h : w.storesUp) :
    (initDbHandlerWithRedis w).2 =
      { greetings := some ⟨[⟨1, some seedMessage⟩], 2⟩
        visits := some 0
        dbDown := w.dbDown
        dbCalls := w.dbCalls + 3
        cacheDown := w.cacheDown
        cacheCalls := w.cacheCalls + 1
        trace := w.trace ++ [.exec .dropTable, .exec .createTable,
          .exec (.insertGreeting seedMessage), .set 0] } := by
  have h0 := h.1 w.dbCalls le_rfl
  have h1 := h.1 (w.dbCalls + 1) (by omega)
  have h2 := h.1 (w.dbCalls + 1 + 1) (by omega)
  have h3 := h.2 w.cacheCalls le_rfl
  simp [initDbHandlerWithRedis, dbExec, rdbSet, World.dbIssued, World.cacheIssued, h0, h1, h2, h3]

/-- A reset leaves the stores reachable when they were. -/
theorem GoDbRedis.initDbHandlerWithRedis_storesUp (w : World) (h : w.storesUp) :
    (initDbHandlerWithRedis w).2.storesUp := by
  rw [initDbHandlerWithRedis_snd w h]
  exact ⟨fun n hn => h.1 n (by simp only at hn; omega), fun n hn => h.2 n (by simp only at hn; omega)⟩

/-- C7: from any state of the two stores, when no call fails, a reset leaves a
table with exactly one row, the seed message, and the counter 0; a second reset
right after leaves the same table and the same counter, and both answer with
status 200. -/
theorem initDbHandlerWithRedis_idempotent (w : World) (h : w.storesUp) :
    (GoDbRedis.initDbHandlerWithRedis w).2.greetings
      = some ⟨[⟨1, some "Hello from Go, with visits tracked by Redis!"⟩], 2⟩ ∧
    (GoDbRedis.initDbHandlerWithRedis w).2.visits = some 0 ∧
    (GoDbRedis.initDbHandlerWithRedis (GoDbRedis.initDbHandlerWithRedis w).2).2.greetings
      = (GoDbRedis.initDbHandlerWithRedis w).2.greetings ∧
    (GoDbRedis.initDbHandlerWithRedis (GoDbRedis.initDbHandlerWithRedis w).2).2.visits
      = (GoDbRedis.initDbHandlerWithRedis w).2.visits ∧
    (GoDbRedis.initDbHandlerWithRedis w).1.status = 200 ∧
    (GoDbRedis.initDbHandlerWithRedis (GoDbRedis.initDbHandlerWithRedis w).2).1.status = 200 := by
  have h1 := GoDbRedis.initDbHandlerWithRedis_storesUp w h
  rw [GoDbRedis.initDbHandlerWithRedis_snd _ h1, GoDbRedis.initDbHandlerWithRedis_snd w h]
  exact ⟨rfl, rfl, rfl, rfl, rfl, rfl⟩

/-- C7, at a store with two rows and counter 9, and at the fresh store. -/
theorem initDbHandlerWithRedis_idempotent_witness :
    ((GoDbRedis.initDbHandlerWithRedis (GoDbRedis.initDbHandlerWithRedis usedWorld).2).2.greetings
      = (GoDbRedis.initDbHandlerWithRedis usedWorld).2.greetings) ∧
    (GoDbRedis.initDbHandlerWithRedis (GoDbRedis.initDbHandlerWithRedis freshWorld).2).2.visits
      = (GoDbRedis.initDbHandlerWithRedis freshWorld).2.visits :=
  ⟨(initDbHandlerWithRedis_idempotent usedWorld ⟨fun _ _ => rfl, fun _ _ => rfl⟩).2.2.1,
   (initDbHandlerWithRedis_idempotent freshWorld ⟨fun _ _ => rfl, fun _ _ => rfl⟩).2.2.2.1⟩

/-! ### Calls of `/` in a row -/

/-- The handler when the increment succeeds, with the world spelled out. -/
theorem GoDbRedis.indexHandlerWithRedis_of_up (w : World)
    (hup : w.cacheDown w.cacheCalls = false) (hmax : w.counter < maxInt64) :
    ∃ m, indexHandlerWithRedis w =
      (⟨200, render m (w.counter + 1)⟩,
        { greetings := w.greetings
          visits := some (w.counter + 1)
          dbDown := w.dbDown
          dbCalls := w.dbCalls + 1
          cacheDown := w.cacheDown
          cacheCalls := w.cacheCalls + 1
          trace := w.trace ++ [.incr, .query] }) := by
  have hok : (rdbIncr w).1 = .ok (w.counter + 1) := (rdbIncr_ok_iff w _).2 ⟨hup, hmax, rfl⟩
  refine ⟨messageOf (dbQueryRowScan (rdbIncr w).2).1, ?_⟩
  rw [indexHandlerWithRedis_of_ok w _ hok, rdbIncr_snd_of_ok w _ hok]
  simp [World.dbIssued, World.cacheIssued, StatusOK]

/-- C8: from any counter value `c`, `N` calls of `indexHandlerWithRedis` in a
row whose increments do not fail (the cache is reachable for each of them and
the counter stays within the 64-bit range) give `N` responses of status 200, the
`j`-th of which (from 0) renders the count `c + (j + 1)`, whatever message the
relational read gave; the counter ends at `c + N` and the trace holds exactly
`N` more increments. -/
theorem views_counter (N : Nat) (w : World)
    (hup : ∀ j, j < N → w.cacheDown (w.cacheCalls + j) = false)
    (hmax : w.counter + N ≤ maxInt64) :
    (GoDbRedis.views N w).1.length = N ∧
    (∀ j, j < N → ∃ m, (GoDbRedis.views N w).1[j]?
      = some ⟨200, GoDbRedis.render m (w.counter + (j + 1))⟩) ∧
    (GoDbRedis.views N w).2.counter = w.counter + N ∧
    (GoDbRedis.views N w).2.trace.count .incr = w.trace.count .incr + N := by
  induction N generalizing w with
  | zero => simp [GoDbRedis.views]
  | succ n ih =>
    obtain ⟨m, hm⟩ := GoDbRedis.indexHandlerWithRedis_of_up w (hup 0 (by omega))
      (by push_cast at hmax; omega)
    have ih1 := ih (GoDbRedis.indexHandlerWithRedis w).2
      (by
        intro j hj
        rw [hm]
        have := hup (j + 1) (by omega)
        simpa [Nat.add_assoc, Nat.add_comm 1 j] using this)
      (by
        rw [hm]
        simp only [World.counter, Option.getD_some]
        simp only [World.counter] at hmax
        push_cast at hmax
        omega)
    obtain ⟨hlen, hget, hcnt, htr⟩ := ih1
    have hc : (GoDbRedis.indexHandlerWithRedis w).2.counter = w.counter + 1 := by
      rw [hm]
      rfl
    have ht : (GoDbRedis.indexHandlerWithRedis w).2.trace = w.trace ++ [.incr, .query] := by
      rw [hm]
    refine ⟨by simp [GoDbRedis.views, hlen], ?_, ?_, ?_⟩
    · intro j hj
      cases j with
      | zero => exact ⟨m, by simp [GoDbRedis.views, hm]⟩
      | succ i =>
        obtain ⟨m1, hm1⟩ := hget i (by omega)
        refine ⟨m1, ?_⟩
        simp only [GoDbRedis.views, List.getElem?_cons_succ]
        rw [hm1, hc]
        push_cast
        ring_nf
    · simp only [GoDbRedis.views]
      rw [hcnt, hc]
      push_cast
      ring
    · simp only [GoDbRedis.views]
      rw [htr, ht]
      simp [List.count_append, List.count_cons]
      omega

/-- C8, for three calls from counter 0 with an unreachable relational store at
the first call. -/
theorem views_counter_witness :
    (GoDbRedis.views 3 (dbDownAt 0)).1.length = 3 ∧
    (GoDbRedis.views 3 (dbDownAt 0)).2.counter = (dbDownAt 0).counter + 3 ∧
    (GoDbRedis.views 3 (dbDownAt 0)).1 =
      [⟨200, "<h1>No greeting found.</h1><p>This page has been visited <strong>1</strong> times.</p>"⟩,
       ⟨200, "<h1>Hello</h1><p>This page has been visited <strong>2</strong> times.</p>"⟩,
       ⟨200, "<h1>Hello</h1><p>This page has been visited <strong>3</strong> times.</p>"⟩] :=
  ⟨(views_counter 3 (dbDownAt 0) (fun _ _ => rfl) (by decide)).1,
   (views_counter 3 (dbDownAt 0) (fun _ _ => rfl) (by decide)).2.2.1, by decide⟩

/-- Calls of `/` in a row on a reachable pair of stores whose table starts with
a row of message `m`: each call renders `m` and the next count. -/
theorem GoDbRedis.views_of_seeded (n : Nat) (w : World) (h : w.storesUp) (r : Row)
    (rs : List Row) (i : Nat) (m : String) (hg : w.greetings = some ⟨r :: rs, i⟩)
    (hm : r.message = some m) (hmax : w.counter + n ≤ maxInt64) :
    (views n w).1 = (List.range n).map (fun j => ⟨200, render m (w.counter + ((j : Nat) + 1))⟩) := by
  induction n generalizing w with
  | zero => simp [views]
  | succ n ih =>
    have hlt : w.counter < maxInt64 := by push_cast at hmax; omega
    have hok : (rdbIncr w).1 = .ok (w.counter + 1) :=
      (rdbIncr_ok_iff w _).2 ⟨h.2 _ le_rfl, hlt, rfl⟩
    have hw := rdbIncr_snd_of_ok w _ hok
    have hq : (dbQueryRowScan (rdbIncr w).2).1 = .ok m := by
      apply dbQueryRowScan_ok _ r rs i m
      · rw [hw]
        exact h.1 _ le_rfl
      · rw [hw]
        exact hg
      · exact hm
    have hidx := indexHandlerWithRedis_of_ok w _ hok
    rw [hq, hw] at hidx
    have ih1 := ih (indexHandlerWithRedis w).2
      (by
        rw [hidx]
        exact ⟨fun k hk => h.1 k (by simp [World.dbIssued, World.cacheIssued] at hk; omega),
          fun k hk => h.2 k (by simp [World.dbIssued, World.cacheIssued] at hk; omega)⟩)
      (by rw [hidx]; exact hg)
      (by
        rw [hidx]
        simp only [World.counter, World.dbIssued, World.cacheIssued, Option.getD_some]
        simp only [World.counter] at hmax
        push_cast at hmax
        omega)
    have hc : (indexHandlerWithRedis w).2.counter = w.counter + 1 := by
      rw [hidx]
      rfl
    simp only [views, List.range_succ_eq_map, List.map_cons, List.map_map]
    rw [ih1, hc, hidx]
    simp only [messageOf, StatusOK, List.cons.injEq, Nat.cast_zero, zero_add, true_and]
    apply List.map_congr_left
    intro j _
    simp only [Function.comp, Nat.succ_eq_add_one]
    push_cast
    ring_nf

/-- C10, as stated, fails: after a reset of the fresh store, the second call of
`indexHandlerWithRedis` answers with status 200 and the count 2, and the message
it renders is "Hello from Go, with visits tracked by Redis!"; the words "Hello
from the PostgreSQL database" occur nowhere in the body. -/
theorem reset_then_view_twice_message :
    (GoDbRedis.indexHandlerWithRedis
      (GoDbRedis.indexHandlerWithRedis (GoDbRedis.initDbHandlerWithRedis freshWorld).2).2).1
      = ⟨200, "<h1>Hello from Go, with visits tracked by Redis!</h1><p>This page has been visited <strong>2</strong> times.</p>"⟩ ∧
    ¬ ("Hello from the PostgreSQL database".toList <:+:
        (GoDbRedis.indexHandlerWithRedis
          (GoDbRedis.indexHandlerWithRedis
            (GoDbRedis.initDbHandlerWithRedis freshWorld).2).2).1.body.toList) := by
  decide

/-- C10, amended: from any state of the two stores, when no call fails on
connectivity, after a reset the calls of `indexHandlerWithRedis` answer with
status 200 and render the seed message "Hello from Go, with visits tracked by
Redis!": the `k`-th call (from 1) renders the count `k`, for every `k` up to the
largest 64-bit integer, and the second call renders the count 2. -/
theorem reset_then_views (w : World) (h : w.storesUp) (k : Nat) (hk : (k : Int) ≤ maxInt64) :
    (GoDbRedis.views k (GoDbRedis.initDbHandlerWithRedis w).2).1
      = (List.range k).map (fun j =>
          ⟨200, GoDbRedis.render "Hello from Go, with visits tracked by Redis!" ((j : Nat) + 1)⟩) ∧
    (GoDbRedis.indexHandlerWithRedis
      (GoDbRedis.indexHandlerWithRedis (GoDbRedis.initDbHandlerWithRedis w).2).2).1
      = ⟨200, "<h1>Hello from Go, with visits tracked by Redis!</h1><p>This page has been visited <strong>2</strong> times.</p>"⟩ := by
  have hup := GoDbRedis.initDbHandlerWithRedis_storesUp w h
  have hw := GoDbRedis.initDbHandlerWithRedis_snd w h
  have hg : (GoDbRedis.initDbHandlerWithRedis w).2.greetings
      = some ⟨[⟨1, some GoDbRedis.seedMessage⟩], 2⟩ := by rw [hw]
  have hc : (GoDbRedis.initDbHandlerWithRedis w).2.counter = 0 := by rw [hw]; rfl
  have key := fun n hn => GoDbRedis.views_of_seeded n (GoDbRedis.initDbHandlerWithRedis w).2 hup
    ⟨1, some GoDbRedis.seedMessage⟩ [] 2 GoDbRedis.seedMessage hg rfl hn
  constructor
  · have := key k (by rw [hc]; simpa using hk)
    rw [this, hc]
    simp [GoDbRedis.seedMessage]
  · have h2 := key 2 (by rw [hc]; decide)
    rw [hc] at h2
    have hr : GoDbRedis.render GoDbRedis.seedMessage 2
        = "<h1>Hello from Go, with visits tracked by Redis!</h1><p>This page has been visited <strong>2</strong> times.</p>" := by
      decide
    simp only [GoDbRedis.views, List.range_succ_eq_map, List.range_zero, List.map_cons,
      List.map_nil, List.cons.injEq, and_true] at h2
    rw [h2.2]
    simp only [Nat.succ_eq_add_one, Nat.cast_zero, zero_add, Nat.cast_one, Nat.cast_add]
    rw [← hr]
    norm_num

/-- C10 amended, for three calls after a reset of a store with two rows and
counter 9. -/
theorem reset_then_views_witness :
    (GoDbRedis.views 3 (GoDbRedis.initDbHandlerWithRedis usedWorld).2).1
      = (List.range 3).map (fun j =>
          ⟨200, GoDbRedis.render "Hello from Go, with visits tracked by Redis!" ((j : Nat) + 1)⟩) :=
  (reset_then_views usedWorld ⟨fun _ _ => rfl, fun _ _ => rfl⟩ 3 (by decide)).1

/-! ### Startup -/

/-- The loop issues nothing but opens, pings and what a failed pass does. -/
theorem retryLoop_events (onFail : List BootEvent) (rel : Nat → Attempt) (n i : Nat) (e : Bool) :
    ∀ ev ∈ (retryLoop onFail rel n i e).2, ev = .sqlOpen ∨ ev = .dbPing ∨ ev ∈ onFail := by
  induction n generalizing i e with
  | zero => simp [retryLoop]
  | succ n ih =>
    intro ev hev
    unfold retryLoop at hev
    cases hr : rel i with
    | connects =>
      rw [hr] at hev
      simp at hev
      tauto
    | openFails =>
      rw [hr] at hev
      simp only [List.mem_append, List.mem_singleton] at hev
      rcases hev with (h | h) | h
      · exact Or.inl h
      · exact Or.inr (Or.inr h)
      · exact ih _ _ ev h
    | pingFails =>
      rw [hr] at hev
      simp only [List.mem_append, List.mem_cons, List.mem_singleton, List.not_mem_nil,
        or_false] at hev
      rcases hev with ((h | h) | h) | h
      · exact Or.inl h
      · exact Or.inr (Or.inl h)
      · exact Or.inr (Or.inr h)
      · exact ih _ _ ev h

/-- When pass `k` of the passes left is the first to connect, the loop ends
without an error, with `k` failed passes followed by the open and the ping of
the pass that connects. -/
theorem retryLoop_connects (onFail : List BootEvent) (hof : BootEvent.sqlOpen ∉ onFail)
    (rel : Nat → Attempt) (n i k : Nat) (e : Bool) (hk : k < n)
    (hfail : ∀ j, j < k → rel (i + j) ≠ .connects) (hok : rel (i + k) = .connects) :
    (retryLoop onFail rel n i e).1 = false ∧
    ∃ pre, (retryLoop onFail rel n i e).2 = pre ++ [.sqlOpen, .dbPing] ∧
      pre.count .sqlOpen = k ∧
      ∀ ev ∈ pre, ev = .sqlOpen ∨ ev = .dbPing ∨ ev ∈ onFail := by
  have hcnt : onFail.count .sqlOpen = 0 := List.count_eq_zero.2 hof
  induction n generalizing i k e with
  | zero => omega
  | succ n ih =>
    cases k with
    | zero =>
      rw [Nat.add_zero] at hok
      unfold retryLoop
      rw [hok]
      exact ⟨rfl, [], rfl, rfl, by simp⟩
    | succ k =>
      have h0 : rel i ≠ .connects := by simpa using hfail 0 (by omega)
      have ih1 := ih (i + 1) k true (by omega)
        (fun j hj => by
          have := hfail (j + 1) (by omega)
          rwa [show i + (j + 1) = i + 1 + j by omega] at this)
        (by rwa [show i + (k + 1) = i + 1 + k by omega] at hok)
      obtain ⟨h1, pre, hpre, hc, hev⟩ := ih1
      unfold retryLoop
      cases hr : rel i with
      | connects => exact absurd hr h0
      | openFails =>
        refine ⟨h1, [.sqlOpen] ++ onFail ++ pre, ?_, ?_, ?_⟩
        · simp [hpre]
        · simp [List.count_append, hcnt, hc]
        · intro ev h
          simp only [List.mem_append, List.mem_singleton] at h
          rcases h with (h | h) | h
          · exact Or.inl h
          · exact Or.inr (Or.inr h)
          · exact hev ev h
      | pingFails =>
        refine ⟨h1, [.sqlOpen, .dbPing] ++ onFail ++ pre, ?_, ?_, ?_⟩
        · simp [hpre]
        · simp [List.count_append, List.count_cons, hcnt, hc]
        · intro ev h
          simp only [List.mem_append, List.mem_cons, List.mem_singleton, List.not_mem_nil,
            or_false] at h
          rcases h with ((h | h) | h) | h
          · exact Or.inl h
          · exact Or.inr (Or.inl h)
          · exact Or.inr (Or.inr h)
          · exact hev ev h

/-- When some pass among those left connects, the loop ends without an error. -/
theorem retryLoop_fst_of_connects (onFail : List BootEvent) (rel : Nat → Attempt)
    (n i : Nat) (e : Bool) (h : ∃ j, j < n ∧ rel (i + j) = .connects) :
    (retryLoop onFail rel n i e).1 = false := by
  induction n generalizing i e with
  | zero =>
    obtain ⟨j, hj, _⟩ := h
    omega
  | succ n ih =>
    obtain ⟨j, hj, hc⟩ := h
    unfold retryLoop
    cases hr : rel i with
    | connects => rfl
    | openFails =>
      cases j with
      | zero => rw [Nat.add_zero, hr] at hc; cases hc
      | succ j =>
        exact ih (i + 1) true ⟨j, by omega, by rwa [show i + (j + 1) = i + 1 + j by omega] at hc⟩
    | pingFails =>
      cases j with
      | zero => rw [Nat.add_zero, hr] at hc; cases hc
      | succ j =>
        exact ih (i + 1) true ⟨j, by omega, by rwa [show i + (j + 1) = i + 1 + j by omega] at hc⟩

/-- When every pass left fails, the loop makes all of them and ends with an
error (with the error it was entered with when no pass is left). -/
theorem retryLoop_exhausts (onFail : List BootEvent) (hof : BootEvent.sqlOpen ∉ onFail)
    (rel : Nat → Attempt) (n i : Nat) (e : Bool)
    (hfail : ∀ j, j < n → rel (i + j) ≠ .connects) :
    (retryLoop onFail rel n i e).1 = (if n = 0 then e else true) ∧
    (retryLoop onFail rel n i e).2.count .sqlOpen = n := by
  have hcnt : onFail.count .sqlOpen = 0 := List.count_eq_zero.2 hof
  induction n generalizing i e with
  | zero => simp [retryLoop]
  | succ n ih =>
    have h0 : rel i ≠ .connects := by simpa using hfail 0 (by omega)
    have ih1 := ih (i + 1) true (fun j hj => by
      have := hfail (j + 1) (by omega)
      rwa [show i + (j + 1) = i + 1 + j by omega] at this)
    unfold retryLoop
    cases hr : rel i with
    | connects => exact absurd hr h0
    | openFails =>
      constructor
      · simp only [ih1.1]
        split <;> simp
      · simp [List.count_append, hcnt, ih1.2]
    | pingFails =>
      constructor
      · simp only [ih1.1]
        split <;> simp
      · simp [List.count_append, List.count_cons, hcnt, ih1.2]

/-- What `main` of 03-go-db-redis does after a loop that ended without an
error. -/
theorem GoDbRedis.main_of_connected (s : Startup)
    (h : (retryLoop [.logRetry, .sleep] s.rel 5 0 false).1 = false) :
    main s = (retryLoop [.logRetry, .sleep] s.rel 5 0 false).2 ++
      (if s.cachePing then
        [.redisNewClient, .redisPing, .logRedisConnected, .handleFunc "/",
          .handleFunc "/init-db", .logStarting, .listenAndServe]
      else [.redisNewClient, .redisPing, .fatalRedis]) := by
  unfold main
  simp only [h]
  cases s.cachePing <;> simp

/-- C4: when pass `k` (from 1, at most 5) of the connection loop is the first
to connect, `main` of 03-go-db-redis makes exactly `k` opens, the last of them
followed by its ping, the creation of the Redis client and the one Redis ping;
no Redis ping comes before, no open and no Redis ping come after, and the fatal
exit on the database is not taken.  `main` of 02-go-web-db makes exactly `k`
opens as well, does not take the fatal exit and starts the server. -/
theorem main_connects_at (s : Startup) (k : Nat) (hk1 : 1 ≤ k) (hk5 : k ≤ 5)
    (hfail : ∀ j, j + 1 < k → s.rel j ≠ .connects) (hok : s.rel (k - 1) = .connects) :
    (∃ pre post,
      GoDbRedis.main s = pre ++ [.sqlOpen, .dbPing, .redisNewClient, .redisPing] ++ post ∧
      pre.count .sqlOpen = k - 1 ∧ BootEvent.redisPing ∉ pre ∧
      BootEvent.sqlOpen ∉ post ∧ BootEvent.redisPing ∉ post) ∧
    (GoDbRedis.main s).count .sqlOpen = k ∧
    (GoDbRedis.main s).count .redisPing = 1 ∧
    BootEvent.fatalDb ∉ GoDbRedis.main s ∧
    (GoWebDb.main s).count .sqlOpen = k ∧
    BootEvent.fatalDb ∉ GoWebDb.main s ∧
    BootEvent.listenAndServe ∈ GoWebDb.main s := by
  have h3 := retryLoop_connects [.logRetry, .sleep] (by decide) s.rel 5 0 (k - 1) false
    (by omega) (fun j hj => by simpa using hfail j (by omega)) (by simpa using hok)
  have h2 := retryLoop_connects [.logRetry] (by decide) s.rel 5 0 (k - 1) false
    (by omega) (fun j hj => by simpa using hfail j (by omega)) (by simpa using hok)
  obtain ⟨e3, pre3, hpre3, hc3, hev3⟩ := h3
  obtain ⟨e2, pre2, hpre2, hc2, hev2⟩ := h2
  have hnp : BootEvent.redisPing ∉ pre3 := fun hm => by
    rcases hev3 _ hm with h | h | h
    · cases h
    · cases h
    · simp at h
  have hnf3 : BootEvent.fatalDb ∉ pre3 := fun hm => by
    rcases hev3 _ hm with h | h | h
    · cases h
    · cases h
    · simp at h
  have hnf2 : BootEvent.fatalDb ∉ pre2 := fun hm => by
    rcases hev2 _ hm with h | h | h
    · cases h
    · cases h
    · simp at h
  have hcp : pre3.count .redisPing = 0 := List.count_eq_zero.2 hnp
  have hm3 := GoDbRedis.main_of_connected s e3
  rw [hpre3] at hm3
  have hm2 : GoWebDb.main s = pre2 ++ [.sqlOpen, .dbPing] ++ [.logDbConnected,
      .handleFunc "/", .handleFunc "/init-db", .logStarting, .listenAndServe] := by
    unfold GoWebDb.main
    simp only [e2, hpre2]
    simp
  refine ⟨?_, ?_, ?_, ?_, ?_, ?_, ?_⟩
  · cases hcache : s.cachePing with
    | false =>
      refine ⟨pre3, [.fatalRedis], ?_, hc3, hnp, by decide, by decide⟩
      rw [hm3, hcache]
      simp
    | true =>
      refine ⟨pre3, [.logRedisConnected, .handleFunc "/", .handleFunc "/init-db", .logStarting,
        .listenAndServe], ?_, hc3, hnp, by decide, by decide⟩
      rw [hm3, hcache]
      simp
  · rw [hm3]
    cases s.cachePing <;> simp [List.count_append, List.count_cons, hc3] <;> omega
  · rw [hm3]
    cases s.cachePing <;> simp [List.count_append, List.count_cons, hcp]
  · rw [hm3]
    cases s.cachePing <;> simp [hnf3]
  · rw [hm2]
    simp [List.count_append, List.count_cons, hc2]
    omega
  · rw [hm2]
    simp [hnf2]
  · rw [hm2]
    simp

/-- C4, for a start whose third pass is the first to connect. -/
theorem main_connects_at_witness :
    (GoDbRedis.main ⟨firstConnectsAt 2, true⟩).count .sqlOpen = 3 ∧
    (GoDbRedis.main ⟨firstConnectsAt 2, true⟩).count .redisPing = 1 ∧
    GoDbRedis.main ⟨firstConnectsAt 2, true⟩
      = [.sqlOpen, .dbPing, .logRetry, .sleep, .sqlOpen, .logRetry, .sleep, .sqlOpen, .dbPing,
          .redisNewClient, .redisPing, .logRedisConnected, .handleFunc "/",
          .handleFunc "/init-db", .logStarting, .listenAndServe] :=
  ⟨(main_connects_at ⟨firstConnectsAt 2, true⟩ 3 (by decide) (by decide)
      (by intro j hj; have hj2 : j < 2 := by omega
          interval_cases j <;> decide) (by decide)).2.1,
   (main_connects_at ⟨firstConnectsAt 2, true⟩ 3 (by decide) (by decide)
      (by intro j hj; have hj2 : j < 2 := by omega
          interval_cases j <;> decide) (by decide)).2.2.1,
   by decide⟩

/-- C5: when each of the first five passes of the connection loop fails, at the
open or at the ping, `main` makes exactly five opens and then takes the fatal
exit on the database, which is the last thing it does; the Redis client is not
created, Redis is not pinged, no handler is registered and the server is not
started.  This holds for `main` of 03-go-db-redis and of 02-go-web-db. -/
theorem main_exhausts (s : Startup) (hfail : ∀ j, j < 5 → s.rel j ≠ .connects) :
    ((GoDbRedis.main s).count .sqlOpen = 5 ∧
      (GoDbRedis.main s).getLast? = some .fatalDb ∧
      (GoDbRedis.main s).count .fatalDb = 1 ∧
      BootEvent.redisNewClient ∉ GoDbRedis.main s ∧
      BootEvent.redisPing ∉ GoDbRedis.main s ∧
      BootEvent.listenAndServe ∉ GoDbRedis.main s ∧
      ∀ p, BootEvent.handleFunc p ∉ GoDbRedis.main s) ∧
    ((GoWebDb.main s).count .sqlOpen = 5 ∧
      (GoWebDb.main s).getLast? = some .fatalDb ∧
      (GoWebDb.main s).count .fatalDb = 1 ∧
      BootEvent.listenAndServe ∉ GoWebDb.main s ∧
      ∀ p, BootEvent.handleFunc p ∉ GoWebDb.main s) := by
  have key : ∀ onFail : List BootEvent, BootEvent.sqlOpen ∉ onFail →
      (∀ ev ∈ onFail, ev = BootEvent.logRetry ∨ ev = BootEvent.sleep) →
      ∀ tr : List BootEvent, tr = (retryLoop onFail s.rel 5 0 false).2 ++ [.fatalDb] →
      tr.count .sqlOpen = 5 ∧ tr.getLast? = some .fatalDb ∧ tr.count .fatalDb = 1 ∧
      BootEvent.redisNewClient ∉ tr ∧ BootEvent.redisPing ∉ tr ∧
      BootEvent.listenAndServe ∉ tr ∧ ∀ p, BootEvent.handleFunc p ∉ tr := by
    intro onFail hof hon tr htr
    have hc := (retryLoop_exhausts onFail hof s.rel 5 0 false
      (fun j hj => by simpa using hfail j hj)).2
    have hev : ∀ ev ∈ (retryLoop onFail s.rel 5 0 false).2,
        ev = .sqlOpen ∨ ev = .dbPing ∨ ev = .logRetry ∨ ev = .sleep := by
      intro ev h
      rcases retryLoop_events onFail s.rel 5 0 false ev h with h | h | h
      · exact Or.inl h
      · exact Or.inr (Or.inl h)
      · exact Or.inr (Or.inr (hon ev h))
    have hnot : ∀ ev : BootEvent, ev ≠ .sqlOpen → ev ≠ .dbPing → ev ≠ .logRetry → ev ≠ .sleep →
        ev ∉ (retryLoop onFail s.rel 5 0 false).2 := by
      intro ev h1 h2 h3 h4 hm
      rcases hev ev hm with h | h | h | h
      · exact h1 h
      · exact h2 h
      · exact h3 h
      · exact h4 h
    have hf := hnot .fatalDb (by decide) (by decide) (by decide) (by decide)
    subst htr
    refine ⟨?_, ?_, ?_, ?_, ?_, ?_, ?_⟩
    · simp [List.count_append, List.count_cons, hc]
    · simp
    · simp [List.count_append, List.count_cons, List.count_eq_zero.2 hf]
    · simpa using hnot .redisNewClient (by decide) (by decide) (by decide) (by decide)
    · simpa using hnot .redisPing (by decide) (by decide) (by decide) (by decide)
    · simpa using hnot .listenAndServe (by decide) (by decide) (by decide) (by decide)
    · intro p
      simpa using hnot (.handleFunc p) (by simp) (by simp) (by simp) (by simp)
  have e3 := (retryLoop_exhausts [.logRetry, .sleep] (by decide) s.rel 5 0 false
    (fun j hj => by simpa using hfail j hj)).1
  have e2 := (retryLoop_exhausts [.logRetry] (by decide) s.rel 5 0 false
    (fun j hj => by simpa using hfail j hj)).1
  simp only [Nat.succ_ne_zero, if_false] at e3 e2
  have k3 := key [.logRetry, .sleep] (by decide) (by simp) (GoDbRedis.main s)
    (by unfold GoDbRedis.main; simp only [e3]; simp)
  have k2 := key [.logRetry] (by decide) (by simp) (GoWebDb.main s)
    (by unfold GoWebDb.main; simp only [e2]; simp)
  exact ⟨k3, k2.1, k2.2.1, k2.2.2.1, k2.2.2.2.2.2.1, k2.2.2.2.2.2.2⟩

/-- C5, for a start whose passes fail alternately at the ping and at the open. -/
theorem main_exhausts_witness :
    (GoDbRedis.main ⟨firstConnectsAt 5, true⟩).count .sqlOpen = 5 ∧
    (GoDbRedis.main ⟨firstConnectsAt 5, true⟩).getLast? = some .fatalDb ∧
    GoWebDb.main ⟨firstConnectsAt 5, true⟩
      = [.sqlOpen, .dbPing, .logRetry, .sqlOpen, .logRetry, .sqlOpen, .dbPing, .logRetry,
          .sqlOpen, .logRetry, .sqlOpen, .dbPing, .logRetry, .fatalDb] :=
  ⟨(main_exhausts ⟨firstConnectsAt 5, true⟩
      (by intro j hj; interval_cases j <;> decide)).1.1,
   (main_exhausts ⟨firstConnectsAt 5, true⟩
      (by intro j hj; interval_cases j <;> decide)).1.2.1,
   by decide⟩

/-- C9: whenever one of the five passes of the connection loop connects, `main`
of 03-go-db-redis pings Redis exactly once.  When that ping fails, what follows
it is the fatal exit and nothing else: no second ping, no sleep, and the server
is not started.  When it succeeds, the two handlers are registered and the
server is started, and no fatal exit is taken. -/
theorem main_cache_single_attempt (s : Startup) (hrel : ∃ j, j < 5 ∧ s.rel j = .connects) :
    (GoDbRedis.main s).count .redisPing = 1 ∧
    (s.cachePing = false →
      (∃ pre, GoDbRedis.main s = pre ++ [.redisNewClient, .redisPing, .fatalRedis] ∧
        BootEvent.redisPing ∉ pre) ∧
      BootEvent.listenAndServe ∉ GoDbRedis.main s) ∧
    (s.cachePing = true →
      (∃ pre, GoDbRedis.main s = pre ++ [.redisNewClient, .redisPing, .logRedisConnected,
        .handleFunc "/", .handleFunc "/init-db", .logStarting, .listenAndServe] ∧
        BootEvent.redisPing ∉ pre) ∧
      BootEvent.fatalRedis ∉ GoDbRedis.main s ∧ BootEvent.fatalDb ∉ GoDbRedis.main s) := by
  have he := retryLoop_fst_of_connects [.logRetry, .sleep] s.rel 5 0 false
    (by obtain ⟨j, hj, hc⟩ := hrel; exact ⟨j, hj, by simpa using hc⟩)
  have hm := GoDbRedis.main_of_connected s he
  have hnot : ∀ ev : BootEvent, ev ≠ .sqlOpen → ev ≠ .dbPing → ev ≠ .logRetry → ev ≠ .sleep →
      ev ∉ (retryLoop [.logRetry, .sleep] s.rel 5 0 false).2 := by
    intro ev h1 h2 h3 h4 hmem
    rcases retryLoop_events _ s.rel 5 0 false ev hmem with h | h | h
    · exact h1 h
    · exact h2 h
    · simp only [List.mem_cons, List.mem_singleton, List.not_mem_nil, or_false] at h
      rcases h with h | h
      · exact h3 h
      · exact h4 h
  have hnp := hnot .redisPing (by decide) (by decide) (by decide) (by decide)
  have hnl := hnot .listenAndServe (by decide) (by decide) (by decide) (by decide)
  have hnr := hnot .fatalRedis (by decide) (by decide) (by decide) (by decide)
  have hnd := hnot .fatalDb (by decide) (by decide) (by decide) (by decide)
  refine ⟨?_, ?_, ?_⟩
  · rw [hm]
    cases s.cachePing <;>
      simp [List.count_append, List.count_cons, List.count_eq_zero.2 hnp]
  · intro hc
    rw [hm, hc]
    exact ⟨⟨_, rfl, hnp⟩, by simp [hnl]⟩
  · intro hc
    rw [hm, hc]
    exact ⟨⟨_, rfl, hnp⟩, by simp [hnr], by simp [hnd]⟩

/-- C9, for a start whose second pass connects and whose Redis ping fails. -/
theorem main_cache_single_attempt_witness :
    (GoDbRedis.main ⟨firstConnectsAt 1, false⟩).count .redisPing = 1 ∧
    GoDbRedis.main ⟨firstConnectsAt 1, false⟩
      = [.sqlOpen, .dbPing, .logRetry, .sleep, .sqlOpen, .dbPing, .redisNewClient, .redisPing,
          .fatalRedis] :=
  ⟨(main_cache_single_attempt ⟨firstConnectsAt 1, false⟩ ⟨1, by decide, by decide⟩).1,
   by decide⟩
